import Mathlib

/-!
Shallow embedding of the theseus profile manager, from
src/theseus/src/state/profiles.rs (the current generation) and
src/theseus/src-old/data/profiles.rs (the previous generation).

Modelling conventions: Rust PathBuf values become String; serde_json
values become the inductive Json below; the filesystem, the OS process
layer and the key-value backend become explicit function parameters; the
global stores of the previous generation become explicit state passing.
-/

namespace Theseus

/-- JSON values as produced by serde_json. Object fields keep their
serialization order; the numbers occurring in the profile schema are the
unsigned integers of its u16 and u32 fields, modelled as Nat. -/
inductive Json where
  | null : Json
  | bool (b : Bool) : Json
  | num (n : Nat) : Json
  | str (s : String) : Json
  | arr (elems : List Json) : Json
  | obj (fields : List (String × Json)) : Json

/-- Field access on a JSON object, none on a missing key or a non-object. -/
def Json.getField : Json → String → Option Json
  | .obj fields, k => fields.lookup k
  | _, _ => none

def Json.asStr : Json → Option String
  | .str s => some s
  | _ => none

def Json.asNat : Json → Option Nat
  | .num n => some n
  | _ => none

def Json.asArr : Json → Option (List Json)
  | .arr l => some l
  | _ => none

def Json.isNull : Json → Bool
  | .null => true
  | _ => false

/-- The serde semantics of an Option field: a missing key or an explicit
null parses as none; any other value must parse with p. -/
def Json.optField (j : Json) (k : String) (p : Json → Option α) : Option (Option α) :=
  match j.getField k with
  | none => some none
  | some v => if v.isNull then some none else (p v).map some

/-- The serde semantics of a required field: the key must be present and
its value must parse with p. -/
def Json.reqField (j : Json) (k : String) (p : Json → Option α) : Option α :=
  (j.getField k).bind p

/-- The serde semantics of deserializing a list of strings, as used for
Vec and for the hook HashSet fields (modelled in iteration order). -/
def Json.strList : List Json → Option (List String)
  | [] => some []
  | j :: rest => do
    let s ← j.asStr
    let t ← Json.strList rest
    pure (s :: t)

/-- Mod loader variant (src/state/profiles.rs lines 56 to 68); serde
renames all variants to lowercase and the Default instance is Vanilla. -/
inductive ModLoader where
  | Vanilla : ModLoader
  | Forge : ModLoader
  | Fabric : ModLoader
deriving DecidableEq

def ModLoader.default : ModLoader := .Vanilla

/-- External daedalus::modded::LoaderVersion, modelled opaquely by its
identifier string; its serde round-trips, which is all the embedding
needs from it. -/
abbrev LoaderVersion := String

/-- MemorySettings (src-old/data/profiles.rs lines 67 to 72). -/
structure MemorySettings where
  minimum : Option Nat
  maximum : Nat
deriving DecidableEq

/-- The Default instance of MemorySettings (src-old/data/profiles.rs
lines 74 to 81). -/
def MemorySettings.default : MemorySettings := { minimum := none, maximum := 2048 }

/-- WindowSize (src-old/data/profiles.rs line 84), a two-field tuple
struct of u16 values. -/
structure WindowSize where
  width : Nat
  height : Nat
deriving DecidableEq

/-- The Default instance of WindowSize (src-old/data/profiles.rs lines 86
to 90). -/
def WindowSize.default : WindowSize := { width := 854, height := 480 }

/-- ProfileHooks (src-old/data/profiles.rs lines 92 to 100), named Hooks
by the current generation; the HashSet fields are modelled as lists in
iteration order. -/
structure Hooks where
  pre_launch : List String
  wrapper : Option String
  post_exit : List String
deriving DecidableEq

/-- The Default instance of ProfileHooks (src-old/data/profiles.rs lines
102 to 110). -/
def Hooks.default : Hooks := { pre_launch := [], wrapper := none, post_exit := [] }

/-- JavaSettings (src/state/profiles.rs lines 80 to 86). -/
structure JavaSettings where
  install : Option String
  extra_arguments : Option (List String)
deriving DecidableEq

/-- ProfileMetadata (src/state/profiles.rs lines 42 to 53). -/
structure ProfileMetadata where
  name : String
  icon : Option String
  game_version : String
  loader : ModLoader
  loader_version : Option LoaderVersion
  format_version : Nat
deriving DecidableEq

/-- Profile (src/state/profiles.rs lines 27 to 40); the path field is
marked serde(skip). -/
structure Profile where
  path : String
  metadata : ProfileMetadata
  java : Option JavaSettings
  memory : Option MemorySettings
  resolution : Option WindowSize
  hooks : Option Hooks
deriving DecidableEq

def CURRENT_FORMAT_VERSION : Nat := 1

/-- SUPPORTED_ICON_FORMATS (src/state/profiles.rs lines 22 to 25). -/
def SUPPORTED_ICON_FORMATS : List String :=
  ["bmp", "gif", "jpeg", "jpg", "jpe", "png", "svg", "svgz", "webp", "rgb", "mp4"]

def PROFILE_JSON_PATH : String := "profile.json"

/-- Serialization of ModLoader under serde(rename_all = "lowercase"). -/
def ModLoader.toJson : ModLoader → Json
  | .Vanilla => .str "vanilla"
  | .Forge => .str "forge"
  | .Fabric => .str "fabric"

def ModLoader.fromJson : Json → Option ModLoader
  | .str "vanilla" => some .Vanilla
  | .str "forge" => some .Forge
  | .str "fabric" => some .Fabric
  | _ => none

/-- A key-value entry for an optional field: omitted entirely when the
value is absent (serde skip_serializing_if Option::is_none). -/
def optEntry (k : String) : Option Json → List (String × Json)
  | some v => [(k, v)]
  | none => []

/-- Serialization of ProfileMetadata: fields in declaration order; icon
and loader_version are omitted when none. -/
def ProfileMetadata.toJson (m : ProfileMetadata) : Json :=
  .obj ([("name", .str m.name)]
    ++ optEntry "icon" (m.icon.map .str)
    ++ [("game_version", .str m.game_version), ("loader", m.loader.toJson)]
    ++ optEntry "loader_version" (m.loader_version.map .str)
    ++ [("format_version", .num m.format_version)])

/-- Deserialization of ProfileMetadata; a missing loader key falls back to
the Default loader (serde(default)). -/
def ProfileMetadata.fromJson (j : Json) : Option ProfileMetadata := do
  let name ← j.reqField "name" Json.asStr
  let icon ← j.optField "icon" Json.asStr
  let game_version ← j.reqField "game_version" Json.asStr
  let loader ← match j.getField "loader" with
    | none => some ModLoader.default
    | some v => ModLoader.fromJson v
  let loader_version ← j.optField "loader_version" Json.asStr
  let format_version ← j.reqField "format_version" Json.asNat
  pure { name, icon, game_version, loader, loader_version, format_version }

def JavaSettings.toJson (s : JavaSettings) : Json :=
  .obj (optEntry "install" (s.install.map .str)
    ++ optEntry "extra_arguments" (s.extra_arguments.map (fun l => .arr (l.map .str))))

def JavaSettings.fromJson (j : Json) : Option JavaSettings := do
  let install ← j.optField "install" Json.asStr
  let extra_arguments ← j.optField "extra_arguments" (fun v => (Json.asArr v).bind Json.strList)
  pure { install, extra_arguments }

def MemorySettings.toJson (s : MemorySettings) : Json :=
  .obj (optEntry "minimum" (s.minimum.map .num) ++ [("maximum", .num s.maximum)])

def MemorySettings.fromJson (j : Json) : Option MemorySettings := do
  let minimum ← j.optField "minimum" Json.asNat
  let maximum ← j.reqField "maximum" Json.asNat
  pure { minimum, maximum }

/-- WindowSize is a tuple struct, so it serializes as a two element
array. -/
def WindowSize.toJson (s : WindowSize) : Json := .arr [.num s.width, .num s.height]

def WindowSize.fromJson : Json → Option WindowSize
  | .arr [.num w, .num h] => some { width := w, height := h }
  | _ => none

/-- Serialization of Hooks: the two set fields carry
skip_serializing_if is_empty, the wrapper skip_serializing_if is_none. -/
def Hooks.toJson (h : Hooks) : Json :=
  .obj ((if h.pre_launch.isEmpty then [] else [("pre_launch", .arr (h.pre_launch.map .str))])
    ++ optEntry "wrapper" (h.wrapper.map .str)
    ++ (if h.post_exit.isEmpty then [] else [("post_exit", .arr (h.post_exit.map .str))]))

/-- Deserialization of Hooks; the set fields carry serde(default), so a
missing key yields the empty set. -/
def Hooks.fromJson (j : Json) : Option Hooks := do
  let pre_launch ← match j.getField "pre_launch" with
    | none => some []
    | some v => (Json.asArr v).bind Json.strList
  let wrapper ← j.optField "wrapper" Json.asStr
  let post_exit ← match j.getField "post_exit" with
    | none => some []
    | some v => (Json.asArr v).bind Json.strList
  pure { pre_launch, wrapper, post_exit }

/-- Serialization of Profile: the path field is serde(skip), every other
optional field is omitted when none. -/
def Profile.toJson (p : Profile) : Json :=
  .obj ([("metadata", p.metadata.toJson)]
    ++ optEntry "java" (p.java.map JavaSettings.toJson)
    ++ optEntry "memory" (p.memory.map MemorySettings.toJson)
    ++ optEntry "resolution" (p.resolution.map WindowSize.toJson)
    ++ optEntry "hooks" (p.hooks.map Hooks.toJson))

/-- Deserialization of Profile; the serde(skip) path field is filled with
the PathBuf Default, the empty path. -/
def Profile.fromJson (j : Json) : Option Profile := do
  let metadata ← j.reqField "metadata" ProfileMetadata.fromJson
  let java ← j.optField "java" JavaSettings.fromJson
  let memory ← j.optField "memory" MemorySettings.fromJson
  let resolution ← j.optField "resolution" WindowSize.fromJson
  let hooks ← j.optField "hooks" Hooks.fromJson
  pure { path := "", metadata, java, memory, resolution, hooks }

/-- Error kinds of the data layer: crate::Error of the current generation
and DataError of the previous one, restricted to the variants profiles.rs
raises; io and serde failures carry their message strings. -/
inductive Error where
  | InputError (msg : String)
  | FormatError (msg : String)
  | IOError (msg : String)
  | SerializationError (msg : String)
  | UTFError (path : String)
deriving DecidableEq

/-- The whitespace test Rust str::trim applies: the full Unicode
White_Space set of char::is_whitespace — tab through carriage return,
space, next line, no-break space, ogham space mark, the en quad to hair
space range, line and paragraph separators, narrow no-break space,
medium mathematical space and ideographic space. -/
def rustIsWhitespace (c : Char) : Bool :=
  let n := c.toNat
  (decide (9 ≤ n) && decide (n ≤ 13)) || n == 32 || n == 133 || n == 160 ||
    n == 5760 || (decide (8192 ≤ n) && decide (n ≤ 8202)) || n == 8232 ||
    n == 8233 || n == 8239 || n == 8287 || n == 12288

/-- Rust str::trim, modelled over the character list of the string so
that it evaluates by structural recursion. -/
def rustTrim (s : String) : String :=
  String.mk (((s.data.dropWhile rustIsWhitespace).reverse.dropWhile rustIsWhitespace).reverse)

/-- Profile::new (src/state/profiles.rs lines 89 to 115): a name that is
empty after trimming is rejected with InputError; otherwise the path is
canonicalized and the profile is built with default metadata. The OS call
canonicalize is a parameter, none meaning an io failure. -/
def Profile.new (canonicalize : String → Option String) (name version path : String) :
    Except Error Profile :=
  if (rustTrim name).isEmpty then
    .error (.InputError "Empty name for instance!")
  else
    match canonicalize path with
    | none => .error (.IOError path)
    | some cp => .ok {
        path := cp,
        metadata := {
          name := name, icon := none, game_version := version,
          loader := .Vanilla, loader_version := none,
          format_version := CURRENT_FORMAT_VERSION },
        java := none, memory := none, resolution := none, hooks := none }

/-- Profile::with_name (src/state/profiles.rs lines 250 to 253). -/
def Profile.with_name (p : Profile) (name : String) : Profile :=
  { p with metadata := { p.metadata with name := name } }

/-- Split a character list at every occurrence of the separator. -/
def splitChars (sep : Char) : List Char → List (List Char)
  | [] => [[]]
  | c :: rest =>
    let r := splitChars sep rest
    if c == sep then [] :: r
    else match r with
      | [] => [[c]]
      | g :: gs => (c :: g) :: gs

/-- Rust Path::file_name on the modelled paths: the last normalized
component — empty components from duplicate or trailing slashes and
current-directory dot components are skipped, and a path terminating in
a parent-directory component has no file name. -/
def fileNameChars (p : String) : List Char :=
  let comps := (splitChars '/' p.data).filter (fun c => !(c.isEmpty) && c != ['.'])
  let last := comps.getLastD []
  if last == ['.', '.'] then [] else last

/-- Rust Path::extension on the modelled paths: the part of the final
path component after its last dot; none when the component has no dot or
only the leading dot of a hidden file. -/
def pathExt (p : String) : Option String :=
  match splitChars '.' (fileNameChars p) with
  | [] => none
  | [_] => none
  | [b, e] => if b.isEmpty then none else some (String.mk e)
  | l => some (String.mk (l.getLastD []))

/-- Profile::with_icon (src/state/profiles.rs lines 255 to 273): an
extension outside SUPPORTED_ICON_FORMATS is rejected with InputError;
otherwise the file is copied into the profile directory as icon.ext and
the metadata icon becomes the relative path ./icon.ext. The filesystem
copy is the parameter copy, true when fs::copy succeeds. -/
def Profile.with_icon (copy : String → String → Bool) (p : Profile) (icon : String) :
    Except Error Profile :=
  let ext := (pathExt icon).getD ""
  if SUPPORTED_ICON_FORMATS.contains ext then
    let file_name := "icon." ++ ext
    if copy icon (p.path ++ "/" ++ file_name) then
      .ok { p with metadata := { p.metadata with icon := some ("./" ++ file_name) } }
    else
      .error (.IOError "copy")
  else
    .error (.InputError ("Unsupported image type: " ++ ext))

/-- The in-memory profile store, HashMap of PathBuf to Profile, modelled
as an association list whose keys are distinct. -/
abbrev Store := List (String × Profile)

def storeLookup (s : Store) (k : String) : Option Profile := s.lookup k

/-- HashMap::remove on the modelled store: drop the entry with the key. -/
def storeRemove (s : Store) (k : String) : Store :=
  s.filter (fun e => e.1 != k)

/-- Profiles::read_profile_from_dir (src/state/profiles.rs lines 382 to
387): read and parse the sidecar profile.json of the directory, then
overwrite the skipped path field with the containing directory. The
filesystem parameter readFile yields the parsed JSON of a file, an
IOError for an unreadable file, or a SerializationError for one that is
not JSON at all. -/
def read_profile_from_dir (readFile : String → Except Error Json) (path : String) :
    Except Error Profile :=
  match readFile (path ++ "/" ++ PROFILE_JSON_PATH) with
  | .error e => .error e
  | .ok j =>
    match Profile.fromJson j with
    | none => .error (.SerializationError "profile.json")
    | some prof => .ok { prof with path := path }

/-- Profiles::init (src/state/profiles.rs lines 321 to 336), given the
path list already bincode-decoded from the key-value backend: the listed
sidecars are read sequentially (stream::iter followed by then) and
try_collect stops at the first failure. -/
def Profiles.init (readFile : String → Except Error Json) : List String → Except Error Store
  | [] => .ok []
  | path :: rest =>
    match read_profile_from_dir readFile path with
    | .error e => .error e
    | .ok prof =>
      match Profiles.init readFile rest with
      | .error e => .error e
      | .ok s => .ok ((path, prof) :: s)

/-- Profiles::remove of the current generation (src/state/profiles.rs
lines 355 to 359): canonicalize the path, drop the entry, and return the
store handle; the removed profile is not returned. -/
def Profiles.remove (canonicalize : String → Option String) (s : Store) (path : String) :
    Except Error Store :=
  match canonicalize path with
  | none => .error (.IOError path)
  | some cp => .ok (storeRemove s cp)

/-- Profiles::remove of the previous generation (src-old/data/profiles.rs
lines 396 to 401): canonicalize the path, drop it from the settings
registry of known profile directories and from the store, and return the
HashMap::remove result, the removed profile when one existed. The global
PROFILES and Settings state is passed and returned explicitly. -/
def ProfilesOld.remove (canonicalize : String → Option String) (registry : List String)
    (s : Store) (path : String) : Except Error (Option Profile × List String × Store) :=
  match canonicalize path with
  | none => .error (.IOError path)
  | some cp => .ok (storeLookup s cp, registry.filter (fun q => q != cp), storeRemove s cp)

/-- Modelled from the spec: the global Settings struct of
src-old/data/settings.rs, which is not among the sources; its fields are
exactly those Profile::run reads — the two tiered default java paths, the
default extra java args, the default hooks, and the default memory and
resolution. -/
structure Settings where
  java_17_path : Option String
  java_8_path : Option String
  custom_java_args : List String
  hooks : Hooks
  memory : MemorySettings
  game_resolution : WindowSize
deriving DecidableEq

/-- The java_version record of the external daedalus version info,
restricted to the field Profile::run reads. -/
structure JavaVersionRecord where
  major_version : Nat
deriving DecidableEq

/-- The external daedalus version info, restricted to the field
Profile::run reads. -/
structure VersionInfo where
  java_version : Option JavaVersionRecord
deriving DecidableEq

/-- crate::launcher::LauncherError, restricted to the variants
src-old/data/profiles.rs raises: ExitError carries a process exit code,
ProcessError tags an io failure with the process name, and DataError
embeds a data-layer error converted by the question mark operator. -/
inductive LauncherError where
  | ExitError (code : Int)
  | JavaError (msg : String)
  | ProcessError (inner : String) (process : String)
  | DataError (e : Error)
deriving DecidableEq

/-- The record of arguments handed to the external collaborator
crate::launcher::launch_minecraft; the spawn is modelled as returning its
parameters. -/
structure LaunchedProcess where
  game_version : String
  loader_version : Option LoaderVersion
  path : String
  java : String
  java_args : List String
  wrapper : Option String
  memory : MemorySettings
  resolution : WindowSize
deriving DecidableEq

/-- The environment Profile::run interacts with: the fetched global
settings, the version ids of the remote manifest, the remote version-info
fetch, hook process execution (spawn plus wait, yielding the exit code,
none when the code is unavailable, or a launcher error for an io
failure), and the filesystem existence check applied to java paths. -/
structure LaunchEnv where
  settings : Settings
  manifest_versions : List String
  fetchVersionInfo : String → Except LauncherError VersionInfo
  exec : String → Except LauncherError (Option Int)
  javaExists : String → Bool

/-- The pre-launch hook loop of Profile::run (src-old/data/profiles.rs
lines 165 to 182), instrumented with the list of hooks actually spawned:
hooks run strictly in sequence, and the first whose exit status is not
success — a nonzero code or an unavailable one — aborts with ExitError of
code unwrap_or -1. -/
def runHooks (exec : String → Except LauncherError (Option Int)) :
    List String → List String × Except LauncherError Unit
  | [] => ([], .ok ())
  | h :: rest =>
    match exec h with
    | .error e => ([h], .error e)
    | .ok code =>
      if code = some 0 then
        let r := runHooks exec rest
        (h :: r.1, r.2)
      else
        ([h], .error (.ExitError (code.getD (-1))))

/-- The tier selection inside the java resolution of Profile::run
(src-old/data/profiles.rs lines 189 to 198): the 17-tier default path
when the declared major version is at least 16, the 8-tier default path
otherwise (also when no java version is declared). -/
def tierChoice (s : Settings) (vi : VersionInfo) : Option String :=
  if (Option.filter (fun jv => decide (16 ≤ jv.major_version)) vi.java_version).isSome
  then s.java_17_path else s.java_8_path

/-- The selected tier as run consumes it (src-old/data/profiles.rs lines
199 to 204): an unset tier path becomes a JavaError naming the declared
major version, map_or 8. -/
def tierPath (s : Settings) (vi : VersionInfo) : Except LauncherError String :=
  match tierChoice s vi with
  | some t => .ok t
  | none => .error (.JavaError ("No Java installed for version " ++
      toString ((vi.java_version.map JavaVersionRecord.major_version).getD 8)))

/-- Java resolution of Profile::run (src-old/data/profiles.rs lines 184
to 212): a profile override install path wins; otherwise the tier path;
the chosen path must then exist on disk or run fails with JavaError. -/
def resolveJavaInstall (p : Profile) (s : Settings) (vi : VersionInfo)
    (javaExists : String → Bool) : Except LauncherError String :=
  let chosen : Except LauncherError String :=
    match p.java with
    | some js =>
      match js.install with
      | some install => .ok install
      | none => tierPath s vi
    | none => tierPath s vi
  match chosen with
  | .error e => .error e
  | .ok install =>
    if javaExists install then .ok install
    else .error (.JavaError ("Could not find java install: " ++ install))

/-- Profile::run (src-old/data/profiles.rs lines 141 to 241) as a pure
pipeline over LaunchEnv, paired with the list of hooks actually spawned:
version lookup in the manifest (the try_join settings fetch is the given
env settings), the sequential pre-launch hooks, java resolution, the
override-or-default settings merge, and finally the spawn record. -/
def Profile.run (env : LaunchEnv) (p : Profile) :
    List String × Except LauncherError LaunchedProcess :=
  if env.manifest_versions.contains p.metadata.game_version then
    match env.fetchVersionInfo p.metadata.game_version with
    | .error e => ([], .error e)
    | .ok vi =>
      match runHooks env.exec (p.hooks.getD env.settings.hooks).pre_launch with
      | (log, .error e) => (log, .error e)
      | (log, .ok _) =>
        match resolveJavaInstall p env.settings vi env.javaExists with
        | .error e => (log, .error e)
        | .ok java =>
          (log, .ok {
            game_version := p.metadata.game_version,
            loader_version := p.metadata.loader_version,
            path := p.path,
            java := java,
            java_args := (p.java.bind (fun js => js.extra_arguments)).getD
              env.settings.custom_java_args,
            wrapper := (p.hooks.map (fun h => h.wrapper)).getD env.settings.hooks.wrapper,
            memory := p.memory.getD env.settings.memory,
            resolution := p.resolution.getD env.settings.game_resolution })
  else
    ([], .error (.DataError (.FormatError
      ("invalid or unknown version: " ++ p.metadata.game_version))))

/-- The exit status of a finished process: a normal exit code, or
termination by signal in which case code() is unavailable. -/
inductive ExitStatus where
  | exited (code : Int)
  | signaled
deriving DecidableEq

def ExitStatus.success : ExitStatus → Bool
  | .exited code => code == 0
  | .signaled => false

def ExitStatus.code : ExitStatus → Option Int
  | .exited code => some code
  | .signaled => none

/-- A process handle: whether the process is still running, and the
outcome its wait() reports — an io failure message or the final status. -/
structure Child where
  alive : Bool
  wait : Except String ExitStatus

/-- Profile::wait_for (src-old/data/profiles.rs lines 251 to 268): an io
failure of wait() becomes ProcessError tagged minecraft; success, exit
code zero, is Ok; every other outcome is ExitError with code
unwrap_or -1. -/
def Profile.wait_for (c : Child) : Except LauncherError Unit :=
  match c.wait with
  | .error e => .error (.ProcessError e "minecraft")
  | .ok status =>
    match status.success with
    | false => .error (.ExitError (status.code.getD (-1)))
    | true => .ok ()

/-- The OS semantics of the tokio Child::kill request, modelled rather
than repository code: a live process is terminated and subsequently
reports a signaled status; a process that has already exited keeps its
recorded outcome and the request is not an error. -/
def Child.osKill (c : Child) : Child :=
  if c.alive then { alive := false, wait := .ok .signaled } else c

/-- Profile::kill (src-old/data/profiles.rs lines 243 to 249): issue the
termination request, then delegate to wait_for. -/
def Profile.kill (c : Child) : Except LauncherError Unit :=
  Profile.wait_for (Child.osKill c)

/-- A concrete profile, mirroring the profile_test fixture of the
repository test module. -/
def exampleProfile : Profile := {
  path := "/tmp/nunya/beeswax",
  metadata := {
    name := "Example Pack", icon := none, game_version := "1.18.2",
    loader := .Vanilla, loader_version := none,
    format_version := CURRENT_FORMAT_VERSION },
  java := some { install := some "/usr/bin/java", extra_arguments := some [] },
  memory := some { minimum := none, maximum := 8192 },
  resolution := some { width := 1920, height := 1080 },
  hooks := some Hooks.default }

/-- A concrete global settings record for the launch examples. -/
def exampleSettings : Settings := {
  java_17_path := some "/java17",
  java_8_path := some "/java8",
  custom_java_args := [],
  hooks := Hooks.default,
  memory := MemorySettings.default,
  game_resolution := WindowSize.default }

/-- A concrete filesystem serving the serialized example profile under
the directory /d. -/
def exampleFS : String → Except Error Json :=
  fun q => if q = "/d/" ++ PROFILE_JSON_PATH then .ok exampleProfile.toJson
           else .error (.IOError q)

/-- A concrete filesystem whose sidecar under /a loads and whose sidecar
under any other directory is unreadable. -/
def failFS : String → Except Error Json :=
  fun q => if q = "/a/" ++ PROFILE_JSON_PATH then .ok exampleProfile.toJson
           else .error (.IOError q)

/-- A launch environment whose second hook exits with code 3. -/
def hookEnv : LaunchEnv := {
  settings := exampleSettings,
  manifest_versions := ["1.18.2"],
  fetchVersionInfo := fun _ => .ok { java_version := some { major_version := 17 } },
  exec := fun c => if c = "h2" then .ok (some 3) else .ok (some 0),
  javaExists := fun _ => true }

/-- The example profile with three pre-launch hooks. -/
def hookProfile : Profile :=
  { exampleProfile with
    hooks := some { pre_launch := ["h1", "h2", "h3"], wrapper := none, post_exit := [] } }

/-- A launch environment in which every hook succeeds and every java path
exists. -/
def runEnv : LaunchEnv := {
  settings := exampleSettings,
  manifest_versions := ["1.18.2"],
  fetchVersionInfo := fun _ => .ok { java_version := some { major_version := 17 } },
  exec := fun _ => .ok (some 0),
  javaExists := fun _ => true }

/-- The spawn record Profile::run produces for exampleProfile in
runEnv. -/
def exampleLaunched : LaunchedProcess := {
  game_version := "1.18.2",
  loader_version := none,
  path := "/tmp/nunya/beeswax",
  java := "/usr/bin/java",
  java_args := [],
  wrapper := none,
  memory := { minimum := none, maximum := 8192 },
  resolution := { width := 1920, height := 1080 } }


/-- Deserializing a serialized string list recovers the list. -/
theorem strList_map_str (l : List String) : Json.strList (l.map Json.str) = some l := by
  induction l with
  | nil => rfl
  | cons a t ih => simp [Json.strList, Json.asStr, ih]

/-- Deserializing a serialized string list recovers the list, stated on
the cons form produced by unfolding. -/
theorem strList_str_cons (a : String) (t : List String) :
    Json.strList (Json.str a :: t.map Json.str) = some (a :: t) := by
  simp [Json.strList, Json.asStr, strList_map_str]

/-- ModLoader serialization round-trips. -/
theorem modLoader_roundtrip (l : ModLoader) : ModLoader.fromJson l.toJson = some l := by
  cases l <;> rfl

theorem isNull_metadata (m : ProfileMetadata) : (ProfileMetadata.toJson m).isNull = false := rfl

theorem isNull_javaSettings (s : JavaSettings) : (JavaSettings.toJson s).isNull = false := rfl

theorem isNull_memory (s : MemorySettings) : (MemorySettings.toJson s).isNull = false := rfl

theorem isNull_windowSize (s : WindowSize) : (WindowSize.toJson s).isNull = false := rfl

theorem isNull_hooks (h : Hooks) : (Hooks.toJson h).isNull = false := rfl

/-- ProfileMetadata serialization round-trips. -/
theorem metadata_roundtrip (m : ProfileMetadata) :
    ProfileMetadata.fromJson m.toJson = some m := by
  obtain ⟨name, icon, gv, loader, lv, fv⟩ := m
  cases icon <;> cases lv <;>
    simp [ProfileMetadata.toJson, ProfileMetadata.fromJson, Json.getField, Json.optField,
      Json.reqField, Json.isNull, optEntry, Json.asStr, Json.asNat, List.lookup, Option.bind,
      modLoader_roundtrip]

/-- JavaSettings serialization round-trips. -/
theorem javaSettings_roundtrip (s : JavaSettings) :
    JavaSettings.fromJson s.toJson = some s := by
  obtain ⟨inst, extra⟩ := s
  cases inst <;> cases extra <;>
    simp [JavaSettings.toJson, JavaSettings.fromJson, Json.getField, Json.optField,
      Json.isNull, optEntry, Json.asStr, Json.asArr, List.lookup, Option.bind,
      strList_map_str, strList_str_cons]

/-- MemorySettings serialization round-trips. -/
theorem memory_roundtrip (s : MemorySettings) :
    MemorySettings.fromJson s.toJson = some s := by
  obtain ⟨minimum, maximum⟩ := s
  cases minimum <;>
    simp [MemorySettings.toJson, MemorySettings.fromJson, Json.getField, Json.optField,
      Json.reqField, Json.isNull, optEntry, Json.asNat, List.lookup, Option.bind]

/-- WindowSize serialization round-trips. -/
theorem windowSize_roundtrip (s : WindowSize) :
    WindowSize.fromJson s.toJson = some s := rfl

/-- Hooks serialization round-trips. -/
theorem hooks_roundtrip (h : Hooks) : Hooks.fromJson h.toJson = some h := by
  obtain ⟨pre, w, post⟩ := h
  cases pre <;> cases w <;> cases post <;>
    simp [Hooks.toJson, Hooks.fromJson, Json.getField, Json.optField, Json.isNull,
      optEntry, Json.asStr, Json.asArr, List.lookup, Option.bind, strList_map_str,
      strList_str_cons]

/-- Profile serialization round-trips up to the serde(skip) path field. -/
theorem profile_roundtrip (p : Profile) :
    Profile.fromJson p.toJson = some { p with path := "" } := by
  obtain ⟨path, metadata, java, memory, resolution, hooks⟩ := p
  cases java <;> cases memory <;> cases resolution <;> cases hooks <;>
    simp [Profile.toJson, Profile.fromJson, Json.getField, Json.optField, Json.reqField,
      optEntry, List.lookup, Option.bind, metadata_roundtrip, javaSettings_roundtrip,
      memory_roundtrip, windowSize_roundtrip, hooks_roundtrip, isNull_metadata,
      isNull_javaSettings, isNull_memory, isNull_windowSize, isNull_hooks]

/-- A lookup miss means the remove filter keeps every entry. -/
theorem storeRemove_of_lookup_none (s : Store) (k : String)
    (h : storeLookup s k = none) : storeRemove s k = s := by
  induction s with
  | nil => rfl
  | cons e t ih =>
    obtain ⟨a, b⟩ := e
    cases hka : (k == a) with
    | true =>
      rw [storeLookup] at h
      simp only [List.lookup, hka] at h
      exact Option.noConfusion h
    | false =>
      have ht : storeLookup t k = none := by
        rw [storeLookup] at h ⊢
        simpa only [List.lookup, hka] using h
      have hak : (a == k) = false := by
        cases hx : (a == k) with
        | false => rfl
        | true =>
          have : a = k := by simpa using hx
          rw [this, beq_self_eq_true] at hka
          exact Bool.noConfusion hka
      have step : storeRemove ((a, b) :: t) k = (a, b) :: storeRemove t k := by
        simp only [storeRemove, List.filter, bne, hak, Bool.not_false]
      rw [step, ih ht]

/-- C1: serializing a Profile and parsing the result yields the profile
with the skipped path field defaulted to the empty path, and
read_profile_from_dir supplies the path from the containing directory, so
a profile read back from its serialized sidecar equals the original in
every field except path, which becomes the directory. -/
theorem claim_C1 (p : Profile) (dir : String) (readFile : String → Except Error Json)
    (hfs : readFile (dir ++ "/" ++ PROFILE_JSON_PATH) = .ok p.toJson) :
    Profile.fromJson p.toJson = some { p with path := "" }
    ∧ read_profile_from_dir readFile dir = .ok { p with path := dir } := by
  refine ⟨profile_roundtrip p, ?_⟩
  simp [read_profile_from_dir, hfs, profile_roundtrip p]

/-- C1 witness: the round trip at the concrete repository test profile. -/
theorem claim_C1_witness :
    Profile.fromJson exampleProfile.toJson = some { exampleProfile with path := "" }
    ∧ read_profile_from_dir exampleFS "/d" = .ok { exampleProfile with path := "/d" } :=
  claim_C1 exampleProfile "/d" exampleFS (by rfl)

/-- C2 counterexample: the remove of the current generation returns the
same value whether or not the path was present — on a store holding the
path and on the empty store the results coincide — so its return value
neither reports whether an entry existed nor carries the removed Profile;
and remove does return an error when canonicalizing the path fails. -/
theorem claim_C2_counterexample :
    Profiles.remove (fun q => some q) [("/p", exampleProfile)] "/p"
      = Profiles.remove (fun q => some q) [] "/p"
    ∧ storeLookup [("/p", exampleProfile)] "/p" = some exampleProfile
    ∧ storeLookup ([] : Store) "/p" = none
    ∧ Profiles.remove (fun _ => none) [] "/p" = .error (.IOError "/p") :=
  ⟨rfl, rfl, rfl, rfl⟩

/-- C2 (amended): remove canonicalizes the path, removes the map entry if
present, and returns the store handle, carrying neither the removed
Profile nor whether an entry existed (the previous generation returned
the removed Profile as an Option); when canonicalization succeeds,
removing an absent path is a no-op that returns Ok, while a path that
fails to canonicalize is an error. -/
theorem claim_C2 (canonicalize : String → Option String) (s : Store)
    (registry : List String) (path cp : String)
    (hcanon : canonicalize path = some cp) :
    Profiles.remove canonicalize s path = .ok (storeRemove s cp)
    ∧ (storeLookup s cp = none → Profiles.remove canonicalize s path = .ok s)
    ∧ ProfilesOld.remove canonicalize registry s path =
        .ok (storeLookup s cp, registry.filter (fun q => q != cp), storeRemove s cp) := by
  refine ⟨by simp [Profiles.remove, hcanon], ?_, by simp [ProfilesOld.remove, hcanon]⟩
  intro habsent
  simp [Profiles.remove, hcanon, storeRemove_of_lookup_none s cp habsent]

/-- C2 witness: removing an absent path is Ok and leaves the store as it
was; the previous generation returns the removed profile when present. -/
theorem claim_C2_witness :
    Profiles.remove (fun q => some q) [("/p", exampleProfile)] "/q"
      = .ok [("/p", exampleProfile)]
    ∧ ProfilesOld.remove (fun q => some q) ["/p"] [("/p", exampleProfile)] "/p"
      = .ok (some exampleProfile, [], []) := by
  refine ⟨?_, ?_⟩
  · exact (claim_C2 (fun q => some q) [("/p", exampleProfile)] [] "/q" "/q" rfl).2.1 rfl
  · exact (claim_C2 (fun q => some q) [("/p", exampleProfile)] ["/p"] "/p" "/p" rfl).2.2

/-- C6: Profile::new fails with InputError exactly on the names that are
empty after trimming, and otherwise stores the given name untrimmed in an
otherwise default profile at the canonicalized path. -/
theorem claim_C6 (canonicalize : String → Option String) (name version path : String) :
    ((rustTrim name).isEmpty = true →
      Profile.new canonicalize name version path
        = .error (.InputError "Empty name for instance!"))
    ∧ ((rustTrim name).isEmpty = false → ∀ cp, canonicalize path = some cp →
      Profile.new canonicalize name version path = .ok {
        path := cp,
        metadata := {
          name := name, icon := none, game_version := version,
          loader := .Vanilla, loader_version := none,
          format_version := CURRENT_FORMAT_VERSION },
        java := none, memory := none, resolution := none, hooks := none }) := by
  constructor
  · intro h
    simp [Profile.new, h]
  · intro h cp hcp
    simp [Profile.new, h, hcp]

/-- C6 witness: whitespace-only names — spaces and the vertical tab
alike — are rejected, and the name with surrounding whitespace but
nonblank content is stored exactly as given. -/
theorem claim_C6_witness :
    Profile.new (fun q => some q) " Pack " "1.18.2" "/inst" = .ok {
      path := "/inst",
      metadata := {
        name := " Pack ", icon := none, game_version := "1.18.2",
        loader := .Vanilla, loader_version := none,
        format_version := CURRENT_FORMAT_VERSION },
      java := none, memory := none, resolution := none, hooks := none }
    ∧ Profile.new (fun q => some q) "   " "1.18.2" "/inst"
      = .error (.InputError "Empty name for instance!")
    ∧ Profile.new (fun q => some q) "\x0B" "1.18.2" "/inst"
      = .error (.InputError "Empty name for instance!")
    ∧ Profile.new (fun q => some q) " " "1.18.2" "/inst"
      = .error (.InputError "Empty name for instance!") :=
  ⟨(claim_C6 (fun q => some q) " Pack " "1.18.2" "/inst").2 (by decide) "/inst" rfl,
   (claim_C6 (fun q => some q) "   " "1.18.2" "/inst").1 (by decide),
   (claim_C6 (fun q => some q) "\x0B" "1.18.2" "/inst").1 (by decide),
   (claim_C6 (fun q => some q) " " "1.18.2" "/inst").1 (by decide)⟩

/-- C7: with_icon rejects an extension outside SUPPORTED_ICON_FORMATS
with InputError for every filesystem copy function alike — so no copy is
consulted and the profile, in particular metadata.icon, is untouched —
and with a supported extension and a successful copy it returns the
profile whose metadata.icon is the relative path ./icon.ext. -/
theorem claim_C7 (p : Profile) (icon : String) :
    (SUPPORTED_ICON_FORMATS.contains ((pathExt icon).getD "") = false →
      ∀ copy, Profile.with_icon copy p icon
        = .error (.InputError ("Unsupported image type: " ++ (pathExt icon).getD "")))
    ∧ (SUPPORTED_ICON_FORMATS.contains ((pathExt icon).getD "") = true →
      ∀ copy, copy icon (p.path ++ "/" ++ ("icon." ++ (pathExt icon).getD "")) = true →
        Profile.with_icon copy p icon = .ok { p with metadata :=
          { p.metadata with icon := some ("./" ++ ("icon." ++ (pathExt icon).getD "")) } }) := by
  constructor
  · intro h copy
    have hm : ((pathExt icon).getD "") ∉ SUPPORTED_ICON_FORMATS := by simpa using h
    simp [Profile.with_icon, hm]
  · intro h copy hcopy
    have hm : ((pathExt icon).getD "") ∈ SUPPORTED_ICON_FORMATS := by simpa using h
    simp [Profile.with_icon, hm, hcopy]

/-- C7 witness: an exe icon is rejected by every copy function, and a
png icon — also one written with a trailing slash, whose file name is
the normalized final component — is copied and recorded as ./icon.png. -/
theorem claim_C7_witness :
    Profile.with_icon (fun _ _ => false) exampleProfile "/a/shot.exe"
      = .error (.InputError "Unsupported image type: exe")
    ∧ Profile.with_icon (fun _ _ => true) exampleProfile "/a/shot.png"
      = .ok { exampleProfile with metadata :=
          { exampleProfile.metadata with icon := some "./icon.png" } }
    ∧ Profile.with_icon (fun _ _ => true) exampleProfile "/a/shot.png/"
      = .ok { exampleProfile with metadata :=
          { exampleProfile.metadata with icon := some "./icon.png" } } :=
  ⟨(claim_C7 exampleProfile "/a/shot.exe").1 (by decide) (fun _ _ => false),
   (claim_C7 exampleProfile "/a/shot.png").2 (by decide) (fun _ _ => true) rfl,
   (claim_C7 exampleProfile "/a/shot.png/").2 (by decide) (fun _ _ => true) rfl⟩

/-- C9: init reads the indexed sidecars sequentially and is fail-fast —
when every path before a failing one loads and that path fails with error
e, init returns exactly e and produces no store, rather than skipping the
failing profile. -/
theorem claim_C9 (readFile : String → Except Error Json) (pre suff : List String)
    (path : String) (e : Error)
    (hpre : ∀ q ∈ pre, ∃ prof, read_profile_from_dir readFile q = .ok prof)
    (hfail : read_profile_from_dir readFile path = .error e) :
    Profiles.init readFile (pre ++ path :: suff) = .error e := by
  induction pre with
  | nil => simp [Profiles.init, hfail]
  | cons q t ih =>
    obtain ⟨prof, hq⟩ := hpre q (by simp)
    have := ih (fun r hr => hpre r (by simp [hr]))
    simp [Profiles.init, hq, this]

/-- C9 witness: with the first sidecar loadable and the second unreadable,
init returns the io error of the second and no store. -/
theorem claim_C9_witness :
    Profiles.init failFS ["/a", "/b"] = .error (.IOError ("/b/" ++ PROFILE_JSON_PATH)) :=
  claim_C9 failFS ["/a"] [] "/b" (.IOError ("/b/" ++ PROFILE_JSON_PATH))
    (by
      intro q hq
      simp only [List.mem_singleton] at hq
      subst hq
      exact ⟨{ exampleProfile with path := "/a" }, by rfl⟩)
    (by rfl)

/-- C10: with_name overwrites metadata.name unconditionally and totally,
leaving every other field unchanged, for every string including a
whitespace-only one; in particular a profile constructed by Profile::new
can afterwards be given a whitespace-only name through with_name. -/
theorem claim_C10 (p : Profile) (n : String)
    (canonicalize : String → Option String) (name version path : String) (p0 : Profile)
    (_hnew : Profile.new canonicalize name version path = .ok p0) :
    (p.with_name n).metadata.name = n
    ∧ (p.with_name n).path = p.path
    ∧ (p.with_name n).metadata.icon = p.metadata.icon
    ∧ (p.with_name n).metadata.game_version = p.metadata.game_version
    ∧ (p.with_name n).metadata.loader = p.metadata.loader
    ∧ (p.with_name n).metadata.loader_version = p.metadata.loader_version
    ∧ (p.with_name n).metadata.format_version = p.metadata.format_version
    ∧ (p.with_name n).java = p.java
    ∧ (p.with_name n).memory = p.memory
    ∧ (p.with_name n).resolution = p.resolution
    ∧ (p.with_name n).hooks = p.hooks
    ∧ (p0.with_name "   ").metadata.name = "   " := by
  refine ⟨rfl, rfl, rfl, rfl, rfl, rfl, rfl, rfl, rfl, rfl, rfl, rfl⟩

/-- C10 witness: setting a whitespace-only name on a freshly constructed
profile succeeds and stores it verbatim. -/
theorem claim_C10_witness :
    (exampleProfile.with_name "   ").metadata.name = "   "
    ∧ (exampleProfile.with_name "   ").memory = exampleProfile.memory
    ∧ (({
        path := "/inst",
        metadata := {
          name := "Pack", icon := none, game_version := "1.18.2",
          loader := .Vanilla, loader_version := none,
          format_version := CURRENT_FORMAT_VERSION },
        java := none, memory := none, resolution := none,
        hooks := none : Profile }).with_name "   ").metadata.name = "   " := by
  have h := claim_C10 exampleProfile "   " (fun q => some q) "Pack" "1.18.2" "/inst"
    { path := "/inst",
      metadata := {
        name := "Pack", icon := none, game_version := "1.18.2",
        loader := .Vanilla, loader_version := none,
        format_version := CURRENT_FORMAT_VERSION },
      java := none, memory := none, resolution := none, hooks := none }
    (by rfl)
  exact ⟨h.1, h.2.2.2.2.2.2.2.2.1, h.2.2.2.2.2.2.2.2.2.2.2⟩

/-- The hook loop runs its prefix of succeeding hooks in order and stops
at the first hook whose exit code is not success, executing nothing after
it. -/
theorem runHooks_abort (exec : String → Except LauncherError (Option Int))
    (pre suff : List String) (h : String) (code : Option Int)
    (hpre : ∀ g ∈ pre, exec g = .ok (some 0))
    (hfail : exec h = .ok code) (hcode : code ≠ some 0) :
    runHooks exec (pre ++ h :: suff) = (pre ++ [h], .error (.ExitError (code.getD (-1)))) := by
  induction pre with
  | nil =>
    simp [runHooks, hfail, hcode]
  | cons g t ih =>
    have hg := hpre g (by simp)
    have ht := ih (fun q hq => hpre q (by simp [hq]))
    simp [runHooks, hg, ht]

/-- C3: effective pre-launch hooks are executed strictly in sequence, and
the first whose exit code is nonzero or unavailable aborts run()
immediately — the hooks after it are never spawned and the result is
ExitError of that code (unwrap_or -1), so no game process record is
produced. -/
theorem claim_C3 (env : LaunchEnv) (p : Profile) (vi : VersionInfo)
    (pre suff : List String) (h : String) (code : Option Int)
    (hmem : p.metadata.game_version ∈ env.manifest_versions)
    (hvi : env.fetchVersionInfo p.metadata.game_version = .ok vi)
    (hhooks : (p.hooks.getD env.settings.hooks).pre_launch = pre ++ h :: suff)
    (hpre : ∀ g ∈ pre, env.exec g = .ok (some 0))
    (hfail : env.exec h = .ok code) (hcode : code ≠ some 0) :
    Profile.run env p = (pre ++ [h], .error (.ExitError (code.getD (-1)))) := by
  have habort := runHooks_abort env.exec pre suff h code hpre hfail hcode
  simp [Profile.run, hmem, hvi, hhooks, habort]

/-- C3 witness: three hooks, the second exiting with code 3 — the third
never runs and run() is ExitError 3. -/
theorem claim_C3_witness :
    Profile.run hookEnv hookProfile = (["h1", "h2"], .error (.ExitError 3)) :=
  claim_C3 hookEnv hookProfile { java_version := some { major_version := 17 } }
    ["h1"] ["h3"] "h2" (some 3)
    (by decide) rfl rfl
    (by
      intro g hg
      simp only [List.mem_singleton] at hg
      subst hg
      rfl)
    rfl (by decide)

/-- C4: java resolution in run() — a profile override install path wins
and is only checked for existence; without an override, a declared major
version of at least 16 selects the global 17-tier path and anything else,
including no declared java version, selects the 8-tier path; an unset
tier path or a chosen path missing on disk yields JavaError. -/
theorem claim_C4 (p : Profile) (s : Settings) (vi : VersionInfo) (fsEx : String → Bool) :
    (∀ i, p.java.bind JavaSettings.install = some i →
      resolveJavaInstall p s vi fsEx =
        (if fsEx i then .ok i
         else .error (.JavaError ("Could not find java install: " ++ i))))
    ∧ (∀ jv, vi.java_version = some jv → 16 ≤ jv.major_version →
      tierChoice s vi = s.java_17_path)
    ∧ ((vi.java_version.map JavaVersionRecord.major_version).getD 8 < 16 →
      tierChoice s vi = s.java_8_path)
    ∧ (∀ t, p.java.bind JavaSettings.install = none → tierChoice s vi = some t →
      resolveJavaInstall p s vi fsEx =
        (if fsEx t then .ok t
         else .error (.JavaError ("Could not find java install: " ++ t))))
    ∧ (p.java.bind JavaSettings.install = none → tierChoice s vi = none →
      ∃ m, resolveJavaInstall p s vi fsEx = .error (.JavaError m)) := by
  refine ⟨?_, ?_, ?_, ?_, ?_⟩
  · intro i hi
    match hj : p.java with
    | none => rw [hj] at hi; simp at hi
    | some js =>
      rw [hj] at hi
      simp at hi
      simp [resolveJavaInstall, hj, hi]
  · intro jv hjv h16
    simp [tierChoice, hjv, Option.filter, h16]
  · intro hlt
    cases hv : vi.java_version with
    | none => simp [tierChoice, hv, Option.filter]
    | some jv =>
      rw [hv] at hlt
      simp at hlt
      simp [tierChoice, hv, Option.filter, decide_eq_false (not_le.mpr hlt)]
  · intro t hnone htier
    have htp : tierPath s vi = .ok t := by simp [tierPath, htier]
    match hj : p.java with
    | none => simp [resolveJavaInstall, hj, htp]
    | some js =>
      rw [hj] at hnone
      simp at hnone
      simp [resolveJavaInstall, hj, hnone, htp]
  · intro hnone htier
    have htp : tierPath s vi = .error (.JavaError ("No Java installed for version " ++
        toString ((vi.java_version.map JavaVersionRecord.major_version).getD 8))) := by
      simp [tierPath, htier]
    refine ⟨"No Java installed for version " ++
      toString ((vi.java_version.map JavaVersionRecord.major_version).getD 8), ?_⟩
    match hj : p.java with
    | none => simp [resolveJavaInstall, hj, htp]
    | some js =>
      rw [hj] at hnone
      simp at hnone
      simp [resolveJavaInstall, hj, hnone, htp]

/-- C4 witness: major version 17 without an override resolves to the
global 17-tier path and major version 8 to the 8-tier path. -/
theorem claim_C4_witness :
    tierChoice exampleSettings { java_version := some { major_version := 17 } }
      = exampleSettings.java_17_path
    ∧ tierChoice exampleSettings { java_version := some { major_version := 8 } }
      = exampleSettings.java_8_path
    ∧ resolveJavaInstall { exampleProfile with java := none } exampleSettings
        { java_version := some { major_version := 17 } } (fun _ => true) = .ok "/java17" := by
  have h17 := claim_C4 { exampleProfile with java := none } exampleSettings
    { java_version := some { major_version := 17 } } (fun _ => true)
  have h8 := claim_C4 { exampleProfile with java := none } exampleSettings
    { java_version := some { major_version := 8 } } (fun _ => true)
  have htier : tierChoice exampleSettings { java_version := some { major_version := 17 } }
      = some "/java17" :=
    (h17.2.1 { major_version := 17 } rfl (by decide)).trans rfl
  refine ⟨h17.2.1 { major_version := 17 } rfl (by decide), h8.2.2.1 (by decide), ?_⟩
  simpa using h17.2.2.2.1 "/java17" rfl htier

/-- C5: the effective memory handed to the spawn record is the profile
override when present and otherwise the whole global memory object, with
no merging inside the substructure; the global default maximum is 2048. -/
theorem claim_C5 (env : LaunchEnv) (p : Profile) (log : List String) (rec : LaunchedProcess)
    (hrun : Profile.run env p = (log, .ok rec)) :
    rec.memory = p.memory.getD env.settings.memory
    ∧ (p.memory = none → rec.memory = env.settings.memory)
    ∧ (∀ m, p.memory = some m → rec.memory = m)
    ∧ MemorySettings.default.maximum = 2048 := by
  have hmem : rec.memory = p.memory.getD env.settings.memory := by
    unfold Profile.run at hrun
    split at hrun
    · split at hrun
      · exact absurd hrun (by simp)
      · split at hrun
        · exact absurd hrun (by simp)
        · split at hrun
          · exact absurd hrun (by simp)
          · have h2 := congrArg Prod.snd hrun
            simp only [Except.ok.injEq] at h2
            rw [← h2]
    · exact absurd hrun (by simp)
  refine ⟨hmem, ?_, ?_, rfl⟩
  · intro h
    rw [hmem, h]
    rfl
  · intro m h
    rw [hmem, h]
    rfl

/-- C5 witness: the example profile overrides memory with maximum 8192,
and that object replaces the global default wholesale. -/
theorem claim_C5_witness :
    exampleLaunched.memory = exampleProfile.memory.getD runEnv.settings.memory
    ∧ (exampleProfile.memory = none → exampleLaunched.memory = runEnv.settings.memory)
    ∧ (∀ m, exampleProfile.memory = some m → exampleLaunched.memory = m)
    ∧ MemorySettings.default.maximum = 2048 :=
  claim_C5 runEnv exampleProfile [] exampleLaunched (by rfl)

/-- C8: wait_for translates termination — exit code 0 is success, any
other exit code is ExitError of that code, an unavailable code is
ExitError -1, an io failure of wait is ProcessError — and kill is the
termination request followed by the same translation, so killing an
already exited process is not an error and resolves with the exit result
that already occurred. -/
theorem claim_C8 (c : Child) (code : Int) (e : String) :
    (c.wait = .ok (.exited 0) → Profile.wait_for c = .ok ())
    ∧ (c.wait = .ok (.exited code) → code ≠ 0 →
        Profile.wait_for c = .error (.ExitError code))
    ∧ (c.wait = .ok .signaled → Profile.wait_for c = .error (.ExitError (-1)))
    ∧ (c.wait = .error e → Profile.wait_for c = .error (.ProcessError e "minecraft"))
    ∧ Profile.kill c = Profile.wait_for (Child.osKill c)
    ∧ (c.alive = false → Profile.kill c = Profile.wait_for c) := by
  refine ⟨?_, ?_, ?_, ?_, rfl, ?_⟩
  · intro h
    simp [Profile.wait_for, h, ExitStatus.success, ExitStatus.code]
  · intro h hne
    simp [Profile.wait_for, h, ExitStatus.success, ExitStatus.code,
      beq_eq_false_iff_ne.mpr hne]
  · intro h
    simp [Profile.wait_for, h, ExitStatus.success, ExitStatus.code]
  · intro h
    simp [Profile.wait_for, h]
  · intro h
    simp [Profile.kill, Child.osKill, h]

/-- C8 witness: a child that exited with code 3 translates to ExitError 3
and killing it afterwards resolves with the same already-recorded
outcome. -/
theorem claim_C8_witness :
    Profile.wait_for { alive := false, wait := .ok (.exited 3) } = .error (.ExitError 3)
    ∧ Profile.kill { alive := false, wait := .ok (.exited 3) }
      = Profile.wait_for { alive := false, wait := .ok (.exited 3) } :=
  ⟨(claim_C8 { alive := false, wait := .ok (.exited 3) } 3 "").2.1 rfl (by decide),
   (claim_C8 { alive := false, wait := .ok (.exited 3) } 3 "").2.2.2.2.2 rfl⟩
